import Mathlib

/-!
Shallow embedding of the lighthouse-rs discovery / classification /
reconciliation / command-dispatch pipeline, translated from the Rust
sources:

  src/lighthouse_core/src/bluetooth/mod.rs        (protocol constants)
  src/lighthouse_core/src/bluetooth/scanning.rs   (scan + classification)
  src/lighthouse_core/src/bluetooth/device_control.rs (dispatch)
  src/lighthouse_core/src/config/mod.rs           (device cache)
  src/lighthouse_cli/src/cli/response.rs          (result contract)
  src/lighthouse_cli/src/main.rs                  (reconciliation flows)

Platform BLE calls (manager construction, adapter enumeration, scan
start/stop, peripheral properties, connect, service discovery, GATT
write, disconnect) and filesystem calls are modelled as deterministic
data carried by the input values: each fallible call is an
`Except String` field of the environment/peripheral, mirroring the
`Result` values the Rust code matches on.
-/

namespace Lighthouse

/-- Rust `str::starts_with`, modelled on the underlying character list
(semantically identical to `String.startsWith`, but structurally
recursive so that concrete instances reduce definitionally). -/
def strStartsWith (s pre : String) : Bool :=
  pre.data.isPrefixOf s.data

/-- ASCII whitespace, as recognised by Rust `str::trim` on ASCII input. -/
def isAsciiWs (c : Char) : Bool :=
  c == ' ' || c == '\t' || c == '\n' || c == '\r'

/-- Rust `str::trim` (restricted to ASCII whitespace, which is all the
stdin prompt can reasonably contain). -/
def asciiTrim (s : String) : String :=
  ⟨((s.data.dropWhile isAsciiWs).reverse.dropWhile isAsciiWs).reverse⟩

/-! ## Bluetooth constants (src/lighthouse_core/src/bluetooth/mod.rs) -/

def LHB_PREFIX : String := "LHB"

def LIGHTHOUSE_MANUFACTURER_ID : Nat := 1373

def LIGHTHOUSE_SERVICE_UUID : Nat := 0x000015231212efde1523785feabcd124

def LIGHTHOUSE_CHAR_UUID : Nat := 0x000015251212efde1523785feabcd124

def STANDBY_COMMAND : Nat := 0x00

def POWERON_COMMAND : Nat := 0x01

/-- Sentinel command value meaning "scan only, no command" (main.rs uses 0xFF). -/
def NO_COMMAND : Nat := 0xFF

/-! ## Exit codes (src/lighthouse_cli/src/cli/response.rs) -/

def EXIT_SUCCESS : Int := 0

def EXIT_GENERAL_ERROR : Int := 1

def EXIT_BLUETOOTH_ERROR : Int := 2

def EXIT_NO_DEVICES_FOUND : Int := 3

def EXIT_COMMAND_FAILED : Int := 4

def EXIT_STEAMVR_ERROR : Int := 5

/-! ## Data model -/

/-- DeviceInfo (src/src/models/device.rs): name and address strings. -/
structure DeviceInfo where
  name : String
  address : String
deriving DecidableEq, Inhabited

/-- A GATT characteristic as seen by btleplug: its UUID and the two write
property flags the code inspects (`CharPropFlags::WRITE`,
`CharPropFlags::WRITE_WITHOUT_RESPONSE`). -/
structure Characteristic where
  uuid : Nat
  write : Bool
  writeWithoutResponse : Bool
deriving DecidableEq, Inhabited

/-- A GATT service: UUID plus its characteristics, in discovery order. -/
structure Service where
  uuid : Nat
  characteristics : List Characteristic
deriving DecidableEq, Inhabited

/-- Advertisement data of a peripheral (btleplug `PeripheralProperties`):
the optional advertised local name and the manufacturer-data map,
modelled as an association list id to payload bytes. -/
structure PeripheralProperties where
  local_name : Option String
  manufacturer_data : List (Nat × List Nat)
deriving DecidableEq, Inhabited

/-- A platform peripheral handle.  The fallible platform calls the code
performs against it are modelled as deterministic `Except` fields:
`properties` is what `peripheral.properties().await` returns,
`isConnected` what `is_connected` returns, and `connectRes`,
`discoverRes`, `writeRes`, `disconnectRes` the outcomes of `connect`,
`discover_services`, `write` and `disconnect`.  `services` is the GATT
service list visible after discovery. -/
structure Peripheral where
  address : String
  properties : Except String (Option PeripheralProperties)
  isConnected : Bool
  connectRes : Except String Unit
  discoverRes : Except String Unit
  services : List Service
  writeRes : Except String Unit
  disconnectRes : Except String Unit

/-- CommandResponse (cli/response.rs): the uniform result contract. -/
structure CommandResponse where
  success : Bool
  message : String
  devices : List DeviceInfo
  errorCode : Int
deriving DecidableEq, Inhabited

/-- `CommandResponse::success` constructor (response.rs). -/
def successResp (message : String) (devices : List DeviceInfo) : CommandResponse :=
  ⟨true, message, devices, EXIT_SUCCESS⟩

/-- `CommandResponse::error` constructor (response.rs): devices list is empty. -/
def errorResp (message : String) (errorCode : Int) : CommandResponse :=
  ⟨false, message, [], errorCode⟩

/-! ## Classification (scanning.rs, device_control.rs) -/

/-- Name derivation used throughout scanning.rs:
`properties.as_ref().and_then(local_name).unwrap_or("Unknown")`. -/
def scanName (props : Option PeripheralProperties) : String :=
  ((props.bind fun pr => pr.local_name).getD "Unknown")

/-- The `is_lighthouse` flag computation of
`process_scan_results_with_json` (scanning.rs lines 124-138): start at
false; for every manufacturer-data entry, set it when the name starts
with `LHB` and the entry id equals 1373.  When properties are absent the
loop body is skipped and the flag stays false. -/
def isLighthouseScan (props : Option PeripheralProperties) : Bool :=
  match props with
  | some pr =>
      pr.manufacturer_data.foldl
        (fun acc kv =>
          acc || (strStartsWith (scanName props) LHB_PREFIX
                   && kv.1 == LIGHTHOUSE_MANUFACTURER_ID))
        false
  | none => false

/-- The lighthouse check of `power_on_lighthouses_with_json` /
`standby_lighthouses_with_json` (device_control.rs lines 269-273):
`name.starts_with(LHB_PREFIX) && manufacturer_data.iter().any(id == 1373)`
where the name defaults to the empty string (`unwrap_or_default`). -/
def isLighthousePower (pr : PeripheralProperties) : Bool :=
  strStartsWith (pr.local_name.getD "") LHB_PREFIX
    && pr.manufacturer_data.any (fun kv => kv.1 == LIGHTHOUSE_MANUFACTURER_ID)

/-- The classification predicate each peripheral is filtered by, as a
function of the peripheral handle (false also when the properties call
fails, in which case `classifyScan` instead aborts). -/
def classifyPred (p : Peripheral) : Bool :=
  match p.properties with
  | Except.ok pr => isLighthouseScan pr
  | Except.error _ => false

/-- The first loop of `process_scan_results_with_json` (scanning.rs
lines 110-156): walk the peripherals in order, propagate a properties
failure, and collect those whose `is_lighthouse` flag is set. -/
def classifyScan : List Peripheral → Except String (List Peripheral)
  | [] => Except.ok []
  | p :: rest =>
    match p.properties with
    | Except.error e => Except.error e
    | Except.ok pr =>
      let isLh := isLighthouseScan pr
      match classifyScan rest with
      | Except.error e => Except.error e
      | Except.ok tail => Except.ok (if isLh then p :: tail else tail)

/-- `peripheral_to_device_info` (scanning.rs lines 13-24). -/
def peripheralToDeviceInfo (p : Peripheral) : Except String DeviceInfo :=
  match p.properties with
  | Except.error e => Except.error e
  | Except.ok props => Except.ok ⟨scanName props, p.address⟩

/-! ## CommandDispatcher (device_control.rs) -/

/-- The inner characteristic loop of `send_command_to_device_with_json`
(device_control.rs lines 80-108): every characteristic whose UUID is the
exact lighthouse characteristic UUID, or which has the WRITE or
WRITE_WITHOUT_RESPONSE property, overwrites the running candidate; the
loop breaks as soon as the exact UUID is seen. -/
def findCharLoop : List Characteristic → Option Characteristic → Option Characteristic
  | [], t => t
  | c :: rest, t =>
    if c.uuid == LIGHTHOUSE_CHAR_UUID || (c.write || c.writeWithoutResponse) then
      if c.uuid == LIGHTHOUSE_CHAR_UUID then some c
      else findCharLoop rest (some c)
    else findCharLoop rest t

/-- The outer service loop of `send_command_to_device_with_json`
(device_control.rs lines 74-115): a service is examined when it is the
lighthouse service or no candidate is held yet; after examining it the
loop breaks when a candidate is held and the service was the lighthouse
service. -/
def findServiceLoop : List Service → Option Characteristic → Option Characteristic
  | [], t => t
  | s :: rest, t =>
    if s.uuid == LIGHTHOUSE_SERVICE_UUID || t.isNone then
      let t2 := findCharLoop s.characteristics t
      if t2.isSome && s.uuid == LIGHTHOUSE_SERVICE_UUID then t2
      else findServiceLoop rest t2
    else findServiceLoop rest t

/-- The characteristic `send_command_to_device_with_json` will write to,
if any. -/
def selectChar (services : List Service) : Option Characteristic :=
  findServiceLoop services none

/-- Observable BLE actions, recorded in order of occurrence.  A
`connect`/`disconnect` event is recorded for a successful platform
connect/disconnect; a `write` event records the write attempt issued to
the characteristic. -/
inductive BleEvent where
  | connect (addr : String)
  | write (addr : String) (charUuid : Nat) (bytes : List Nat)
  | disconnect (addr : String)
deriving DecidableEq

def BleEvent.isWrite : BleEvent → Bool
  | BleEvent.write _ _ _ => true
  | _ => false

/-- `send_command_to_device_with_json` (device_control.rs lines 26-157):
propagate a properties failure; connect if not already connected;
discover services; select the target characteristic with the service
loop; if none was found, log and return the error
"No writable characteristic found" without writing; otherwise write the
single command byte and then disconnect.  Returns the result together
with the list of BLE events that occurred. -/
def sendCommandToDevice (p : Peripheral) (command : Nat) :
    Except String Unit × List BleEvent :=
  match p.properties with
  | Except.error e => (Except.error e, [])
  | Except.ok _ =>
    let connEvents : Except String Unit × List BleEvent :=
      if !p.isConnected then
        match p.connectRes with
        | Except.error e => (Except.error e, [])
        | Except.ok _ => (Except.ok (), [BleEvent.connect p.address])
      else (Except.ok (), [])
    match connEvents with
    | (Except.error e, evs) => (Except.error e, evs)
    | (Except.ok _, evs) =>
      match p.discoverRes with
      | Except.error e => (Except.error e, evs)
      | Except.ok _ =>
        match selectChar p.services with
        | some c =>
          let evs2 := evs ++ [BleEvent.write p.address c.uuid [command]]
          match p.writeRes with
          | Except.error e => (Except.error e, evs2)
          | Except.ok _ =>
            match p.disconnectRes with
            | Except.error e => (Except.error e, evs2)
            | Except.ok _ =>
              (Except.ok (), evs2 ++ [BleEvent.disconnect p.address])
        | none => (Except.error "No writable characteristic found", evs)

/-- The per-device loop of `handle_device_command_with_json`
(device_control.rs lines 189-217): each device is processed in order;
the send result is matched and logged in both arms, so a failure never
stops the loop.  Returns the concatenated event trace. -/
def runBatch : List Peripheral → Nat → List BleEvent
  | [], _ => []
  | d :: rest, command =>
    match sendCommandToDevice d command with
    | (Except.ok _, evs) => evs ++ runBatch rest command
    | (Except.error _, evs) => evs ++ runBatch rest command

/-- `handle_device_command_with_json` (device_control.rs lines 169-224):
runs the batch loop and always returns `Ok(())`. -/
def handleDeviceCommand (devices : List Peripheral) (command : Nat) :
    Except String Unit × List BleEvent :=
  (Except.ok (), runBatch devices command)

/-- Result helper mirroring `Result::ok().is_some()` style checks. -/
def resToOption {α : Type} : Except String α → Option α
  | Except.ok a => some a
  | Except.error _ => none

/-- The success response built by `handle_device_command_mode` after a
dispatch over the reconciled devices (main.rs lines 550-574): convert
each dispatched peripheral with `peripheral_to_device_info`, keeping the
successful conversions, and report their count in the message. -/
def dispatchSuccessResponse (lighthouseDevices : List Peripheral) (commandMode : Nat) :
    CommandResponse :=
  let found := lighthouseDevices.filterMap (fun d => resToOption (peripheralToDeviceInfo d))
  let commandName := if commandMode == STANDBY_COMMAND then "standby" else "power on"
  successResp
    ("Successfully sent " ++ commandName ++ " command to "
      ++ toString found.length ++ " devices")
    found

/-! ### Connection-counting machinery for the temporal claim -/

/-- Tracks the multiset of open connections along an event trace and
checks that at every point at most one connection is open. -/
def atMostOneOpenAux : List BleEvent → List String → Bool
  | [], _ => true
  | BleEvent.connect a :: rest, conns =>
    (decide ((a :: conns).length ≤ 1)) && atMostOneOpenAux rest (a :: conns)
  | BleEvent.disconnect a :: rest, conns => atMostOneOpenAux rest (conns.erase a)
  | BleEvent.write _ _ _ :: rest, conns => atMostOneOpenAux rest conns

/-- At most one BLE connection is open at any point of the trace. -/
def atMostOneOpen (evs : List BleEvent) : Bool :=
  atMostOneOpenAux evs []

/-! ## DeviceCache (config/mod.rs) -/

/-- Filesystem state seen by `load_devices_with_json`: whether
`get_config_path` succeeds, whether the file exists, and the combined
outcome of reading and JSON-parsing the file when it does. -/
structure CacheFs where
  configPathOk : Except String Unit
  fileExists : Bool
  readParseRes : Except String (List DeviceInfo)

/-- `load_devices_with_json` (config/mod.rs lines 48-66): resolve the
config path, return `Ok(vec![])` when the file does not exist, otherwise
read and parse it. -/
def loadDevices (fs : CacheFs) : Except String (List DeviceInfo) :=
  match fs.configPathOk with
  | Except.error e => Except.error e
  | Except.ok _ =>
    if !fs.fileExists then Except.ok []
    else fs.readParseRes

/-! ## Scanner pipeline (scanning.rs) -/

/-- The second loop of `process_scan_results_with_json` (scanning.rs
lines 175-191): for each classified station query its properties again
(propagating failure) and build the `DeviceInfo` via
`peripheral_to_device_info`. -/
def buildInfoList : List Peripheral → Except String (List DeviceInfo)
  | [] => Except.ok []
  | p :: rest =>
    match p.properties with
    | Except.error e => Except.error e
    | Except.ok _ =>
      match peripheralToDeviceInfo p with
      | Except.error e => Except.error e
      | Except.ok info =>
        match buildInfoList rest with
        | Except.error e => Except.error e
        | Except.ok tail => Except.ok (info :: tail)

/-- Observable outcome of `process_scan_results_with_json`:
the classified stations, the list passed to `save_devices` (when that
point is reached), and the devices handed to
`handle_device_command_with_json`. -/
structure ProcessResult where
  lighthouses : List Peripheral
  saved : Option (List DeviceInfo)
  dispatched : List Peripheral

/-- `process_scan_results_with_json` (scanning.rs lines 91-211): return
early when no peripherals were seen; classify; return early when no
lighthouse was classified; build the info list; pass it to
`save_devices`, whose result (`saveRes`) is matched and logged in both
arms but otherwise ignored; finally, when a command was requested
(`commandMode != 0xFF`), hand the classified stations to
`handle_device_command_with_json` (which always returns `Ok`). -/
def processScanResults (peripherals : List Peripheral) (commandMode : Nat)
    (saveRes : Except String Unit) : Except String ProcessResult :=
  if peripherals.isEmpty then Except.ok ⟨[], none, []⟩
  else
    match classifyScan peripherals with
    | Except.error e => Except.error e
    | Except.ok stations =>
      if stations.isEmpty then Except.ok ⟨stations, none, []⟩
      else
        match buildInfoList stations with
        | Except.error e => Except.error e
        | Except.ok infos =>
          match saveRes with
          | Except.ok _ =>
            if commandMode != NO_COMMAND then Except.ok ⟨stations, some infos, stations⟩
            else Except.ok ⟨stations, some infos, []⟩
          | Except.error _ =>
            if commandMode != NO_COMMAND then Except.ok ⟨stations, some infos, stations⟩
            else Except.ok ⟨stations, some infos, []⟩

/-- Platform responses consumed by one scan invocation:
`Manager::new`, `manager.adapters()` (count of adapters),
`adapter.adapter_info()`, `adapter.start_scan`, `adapter.peripherals()`
and `adapter.stop_scan`. -/
structure ScanEnv where
  managerRes : Except String Unit
  adaptersCount : Except String Nat
  adapterInfoRes : Except String String
  startScanRes : Except String Unit
  peripheralsRes : Except String (List Peripheral)
  stopScanRes : Except String Unit

/-- `scan_process_and_save_with_json` (scanning.rs lines 39-78):
initialize the manager, require at least one adapter, log the adapter
info, start the scan, fetch the peripherals, process them, and only
then stop the scan — every step, including `stop_scan`, propagates its
error with the question-mark operator.  The second component records the
devices that were handed to the dispatcher before any later failure. -/
def scanProcessAndSave (env : ScanEnv) (commandMode : Nat)
    (saveRes : Except String Unit) :
    Except String ProcessResult × List Peripheral :=
  match env.managerRes with
  | Except.error e => (Except.error e, [])
  | Except.ok _ =>
    match env.adaptersCount with
    | Except.error e => (Except.error e, [])
    | Except.ok n =>
      if n == 0 then (Except.error "No Bluetooth adapters found", [])
      else
        match env.adapterInfoRes with
        | Except.error e => (Except.error e, [])
        | Except.ok _ =>
          match env.startScanRes with
          | Except.error e => (Except.error e, [])
          | Except.ok _ =>
            match env.peripheralsRes with
            | Except.error e => (Except.error e, [])
            | Except.ok peripherals =>
              match processScanResults peripherals commandMode saveRes with
              | Except.error e => (Except.error e, [])
              | Except.ok r =>
                match env.stopScanRes with
                | Except.error e => (Except.error e, r.dispatched)
                | Except.ok _ => (Except.ok r, r.dispatched)

/-! ## ReconciliationEngine (main.rs handle_device_command_mode) -/

/-- How one invocation of `handle_device_command_mode` ends: a normal
`Ok(())` return, a `process::exit(code)`, or an `Err` propagated with
the question-mark operator. -/
inductive CmdOutcome where
  | completed (printed : Option CommandResponse)
  | exited (code : Int) (printed : Option CommandResponse)
  | errored (msg : String)
deriving DecidableEq

/-- Outcome together with the devices handed to the dispatcher during
the invocation and the warnings logged along the way. -/
structure FlowResult where
  outcome : CmdOutcome
  dispatched : List Peripheral
  warnings : List String

/-- A response is printed only in JSON mode. -/
def respIf (jsonOutput : Bool) (r : CommandResponse) : Option CommandResponse :=
  if jsonOutput then some r else none

/-- `load_devices().unwrap_or_default()`. -/
def unwrapOrDefault (r : Except String (List DeviceInfo)) : List DeviceInfo :=
  match r with
  | Except.ok l => l
  | Except.error _ => []

/-- The fresh-scan branch of `handle_device_command_mode`
(main.rs lines 588-615), also reached from the interactive rescan
prompt: run `scan_process_and_save(command_mode)`; on success reload the
cache with `unwrap_or_default` and report success, on failure exit with
`EXIT_COMMAND_FAILED`. -/
def noCacheFlow (freshEnv : ScanEnv) (commandMode : Nat) (jsonOutput : Bool)
    (freshSave : Except String Unit)
    (reloadAfter : Except String (List DeviceInfo)) : FlowResult :=
  match scanProcessAndSave freshEnv commandMode freshSave with
  | (Except.ok _, disp) =>
    ⟨CmdOutcome.completed
        (respIf jsonOutput
          (successResp "Successfully scanned and executed command"
            (unwrapOrDefault reloadAfter))),
      disp, []⟩
  | (Except.error e, disp) =>
    ⟨CmdOutcome.exited EXIT_COMMAND_FAILED
        (respIf jsonOutput
          (errorResp ("Failed to scan and execute command: " ++ e)
            EXIT_COMMAND_FAILED)),
      disp, []⟩

/-- The cached-devices branch of `handle_device_command_mode`
(main.rs lines 355-587): initialize the manager and adapters (exit
`EXIT_BLUETOOTH_ERROR` on failure or absence), propagate an
`adapter_info` failure, start a scan (exit on failure), fetch the
peripherals (exit on failure), stop the scan (failure only logged as a
warning), intersect the scan with the cache by address, and either
dispatch to the intersection, or — when empty — exit with
`EXIT_NO_DEVICES_FOUND` in JSON mode, or prompt for a rescan in
interactive mode (`y`/`Y` re-runs `scan_process_and_save`). -/
def hasCacheFlow (cached : List DeviceInfo) (env : ScanEnv) (commandMode : Nat)
    (jsonOutput : Bool) (userInput : String) (freshEnv : ScanEnv)
    (freshSave : Except String Unit)
    (reloadAfter : Except String (List DeviceInfo)) : FlowResult :=
  match env.managerRes with
  | Except.error e =>
    ⟨CmdOutcome.exited EXIT_BLUETOOTH_ERROR
        (respIf jsonOutput
          (errorResp ("Failed to initialize Bluetooth manager: " ++ e)
            EXIT_BLUETOOTH_ERROR)), [], []⟩
  | Except.ok _ =>
    match env.adaptersCount with
    | Except.error e =>
      ⟨CmdOutcome.exited EXIT_BLUETOOTH_ERROR
          (respIf jsonOutput
            (errorResp ("Failed to get Bluetooth adapters: " ++ e)
              EXIT_BLUETOOTH_ERROR)), [], []⟩
    | Except.ok n =>
      if n == 0 then
        ⟨CmdOutcome.exited EXIT_BLUETOOTH_ERROR
            (respIf jsonOutput
              (errorResp "No Bluetooth adapters found" EXIT_BLUETOOTH_ERROR)),
          [], []⟩
      else
        match env.adapterInfoRes with
        | Except.error e => ⟨CmdOutcome.errored e, [], []⟩
        | Except.ok _ =>
          match env.startScanRes with
          | Except.error e =>
            ⟨CmdOutcome.exited EXIT_BLUETOOTH_ERROR
                (respIf jsonOutput
                  (errorResp ("Failed to start Bluetooth scan: " ++ e)
                    EXIT_BLUETOOTH_ERROR)), [], []⟩
          | Except.ok _ =>
            match env.peripheralsRes with
            | Except.error e =>
              ⟨CmdOutcome.exited EXIT_BLUETOOTH_ERROR
                  (respIf jsonOutput
                    (errorResp ("Failed to get peripherals: " ++ e)
                      EXIT_BLUETOOTH_ERROR)), [], []⟩
            | Except.ok peripherals =>
              let warns :=
                match env.stopScanRes with
                | Except.error e => ["Warning: Failed to stop Bluetooth scan: " ++ e]
                | Except.ok _ => []
              let lighthouseDevices :=
                peripherals.filter
                  (fun p => cached.any (fun d => d.address == p.address))
              if lighthouseDevices.isEmpty then
                if jsonOutput then
                  ⟨CmdOutcome.exited EXIT_NO_DEVICES_FOUND
                      (some (errorResp "No cached devices found in the current scan"
                        EXIT_NO_DEVICES_FOUND)), [], warns⟩
                else
                  if asciiTrim userInput == "y" || asciiTrim userInput == "Y" then
                    match scanProcessAndSave freshEnv commandMode freshSave with
                    | (Except.ok _, disp) =>
                      ⟨CmdOutcome.completed
                          (respIf jsonOutput
                            (successResp "Successfully executed command on new devices"
                              (unwrapOrDefault reloadAfter))), disp, warns⟩
                    | (Except.error e, disp) =>
                      ⟨CmdOutcome.exited EXIT_COMMAND_FAILED
                          (respIf jsonOutput
                            (errorResp ("Failed to execute command: " ++ e)
                              EXIT_COMMAND_FAILED)), disp, warns⟩
                  else
                    ⟨CmdOutcome.exited EXIT_NO_DEVICES_FOUND
                        (respIf jsonOutput
                          (errorResp "User chose not to perform a new scan"
                            EXIT_NO_DEVICES_FOUND)), [], warns⟩
              else
                match (handleDeviceCommand lighthouseDevices commandMode).1 with
                | Except.ok _ =>
                  ⟨CmdOutcome.completed
                      (respIf jsonOutput
                        (dispatchSuccessResponse lighthouseDevices commandMode)),
                    lighthouseDevices, warns⟩
                | Except.error e =>
                  ⟨CmdOutcome.exited EXIT_COMMAND_FAILED
                      (respIf jsonOutput
                        (errorResp ("Failed to send command to devices: " ++ e)
                          EXIT_COMMAND_FAILED)),
                    lighthouseDevices, warns⟩

/-- `handle_device_command_mode` (main.rs lines 335-618): load the
cache; on a load failure print an error and `process::exit(1)`; with a
non-empty cache run the cached-devices branch, otherwise the fresh-scan
branch. -/
def handleDeviceCommandMode (loadRes : Except String (List DeviceInfo))
    (env : ScanEnv) (commandMode : Nat) (jsonOutput : Bool) (userInput : String)
    (freshEnv : ScanEnv) (freshSave : Except String Unit)
    (reloadAfter : Except String (List DeviceInfo)) : FlowResult :=
  match loadRes with
  | Except.error e =>
    ⟨CmdOutcome.exited EXIT_GENERAL_ERROR
        (respIf jsonOutput
          (errorResp ("Failed to load known devices: " ++ e) EXIT_GENERAL_ERROR)),
      [], []⟩
  | Except.ok cached =>
    if !cached.isEmpty then
      hasCacheFlow cached env commandMode jsonOutput userInput freshEnv freshSave reloadAfter
    else
      noCacheFlow freshEnv commandMode jsonOutput freshSave reloadAfter

/-- Boolean pairwise-distinctness of record addresses. -/
def addrsDistinct : List DeviceInfo → Bool
  | [] => true
  | d :: rest =>
    (!(rest.any (fun x => x.address == d.address))) && addrsDistinct rest

/-- Boolean pairwise-distinctness of peripheral addresses. -/
def periphAddrsDistinct : List Peripheral → Bool
  | [] => true
  | p :: rest =>
    (!(rest.any (fun x => x.address == p.address))) && periphAddrsDistinct rest

/-- Boolean pairwise-distinctness of a list of strings. -/
def strsDistinct : List String → Bool
  | [] => true
  | a :: rest => (!(rest.any (fun x => x == a))) && strsDistinct rest

/-! ### Characteristic-selection characterization (spec side) -/

/-- A characteristic supporting write or write-without-response. -/
def isWritableChar (c : Characteristic) : Bool :=
  c.write || c.writeWithoutResponse

/-- A characteristic the selection loop reacts to: the exact lighthouse
characteristic UUID or a writable one. -/
def charMatches (c : Characteristic) : Bool :=
  c.uuid == LIGHTHOUSE_CHAR_UUID || isWritableChar c

/-- The first characteristic bearing the exact lighthouse characteristic
UUID. -/
def firstExact (cs : List Characteristic) : Option Characteristic :=
  cs.find? (fun c => c.uuid == LIGHTHOUSE_CHAR_UUID)

/-- Functional characterization of the inner characteristic loop: the
first exact-UUID characteristic; failing that the LAST writable
characteristic; failing that the incoming candidate. -/
def pickFrom (cs : List Characteristic) (t : Option Characteristic) :
    Option Characteristic :=
  match firstExact cs with
  | some c => some c
  | none =>
    match (cs.filter isWritableChar).getLast? with
    | some c => some c
    | none => t

/-- The candidate one examined service contributes. -/
def servicePick (s : Service) : Option Characteristic :=
  pickFrom s.characteristics none

/-! ## Concrete sample inputs used as witnesses and counterexamples -/

def okUnit : Except String Unit := Except.ok ()

/-- Advertisement data of a lighthouse named "LHB-B91A". -/
def sampleLhProps : PeripheralProperties := ⟨some "LHB-B91A", [(1373, [0])]⟩

/-- Advertisement data of a lighthouse named "LHB-C222". -/
def sampleLhProps2 : PeripheralProperties := ⟨some "LHB-C222", [(1373, [0])]⟩

/-- Advertisement data of a non-lighthouse peripheral. -/
def sampleMouseProps : PeripheralProperties := ⟨some "Mouse", [(76, [1])]⟩

/-- The lighthouse control service with its exact control characteristic. -/
def sampleGoodSvc : Service :=
  ⟨LIGHTHOUSE_SERVICE_UUID, [⟨LIGHTHOUSE_CHAR_UUID, false, true⟩]⟩

/-- A lighthouse whose GATT database exposes no service at all: its send
fails with no writable characteristic, after a successful connect. -/
def sampleNoCharDev : Peripheral :=
  ⟨"AA:AA", Except.ok (some sampleLhProps), false, okUnit, okUnit, [], okUnit, okUnit⟩

/-- A lighthouse whose send succeeds end to end. -/
def sampleGoodDev : Peripheral :=
  ⟨"BB:BB", Except.ok (some sampleLhProps2), false, okUnit, okUnit, [sampleGoodSvc],
    okUnit, okUnit⟩

/-- Two distinct classified peripherals sharing one address. -/
def sampleDupA : Peripheral :=
  ⟨"AA:BB", Except.ok (some sampleLhProps), false, okUnit, okUnit, [], okUnit, okUnit⟩

def sampleDupB : Peripheral :=
  ⟨"AA:BB", Except.ok (some sampleLhProps2), false, okUnit, okUnit, [], okUnit, okUnit⟩

/-- A visible peripheral that is not a lighthouse. -/
def sampleMouseDev : Peripheral :=
  ⟨"CC:CC", Except.ok (some sampleMouseProps), false, okUnit, okUnit, [], okUnit, okUnit⟩

/-- A visible lighthouse at an address absent from the sample cache. -/
def sampleLhDevCD : Peripheral :=
  ⟨"CC:DD", Except.ok (some sampleLhProps), false, okUnit, okUnit, [], okUnit, okUnit⟩

/-- A one-record cache at address "AA:BB". -/
def sampleCached : List DeviceInfo := [⟨"Lighthouse", "AA:BB"⟩]

/-- A healthy scan seeing only the non-lighthouse peripheral. -/
def envMouse : ScanEnv :=
  ⟨okUnit, Except.ok 1, Except.ok "hci0", okUnit, Except.ok [sampleMouseDev], okUnit⟩

/-- A healthy scan seeing only the lighthouse at "CC:DD". -/
def envOnlyCD : ScanEnv :=
  ⟨okUnit, Except.ok 1, Except.ok "hci0", okUnit, Except.ok [sampleLhDevCD], okUnit⟩

/-- A scan that succeeds but whose final stop-scan call fails. -/
def envStopFail : ScanEnv :=
  ⟨okUnit, Except.ok 1, Except.ok "hci0", okUnit, Except.ok [sampleGoodDev],
    Except.error "stop failed"⟩

/-- A fully healthy scan seeing the good lighthouse. -/
def envGood : ScanEnv :=
  ⟨okUnit, Except.ok 1, Except.ok "hci0", okUnit, Except.ok [sampleGoodDev], okUnit⟩

/-- Two writable characteristics, neither with the exact UUID, on one
non-lighthouse service. -/
def cfChar1 : Characteristic := ⟨0x111, true, false⟩

def cfChar2 : Characteristic := ⟨0x222, true, false⟩

def cfSvc : Service := ⟨0xABC, [cfChar1, cfChar2]⟩

/-! ## Helper lemmas -/

theorem foldl_or_eq_any {α : Type} (f : α → Bool) (l : List α) (b : Bool) :
    l.foldl (fun acc x => acc || f x) b = (b || l.any f) := by
  induction l generalizing b with
  | nil => simp
  | cons x xs ih =>
    simp only [List.foldl_cons, List.any_cons, ih, Bool.or_assoc]

theorem isLighthouseScan_eq_spec (props : Option PeripheralProperties) :
    isLighthouseScan props
      = (strStartsWith (scanName props) LHB_PREFIX
          && (match props with
              | some pr =>
                  pr.manufacturer_data.any
                    (fun kv => kv.1 == LIGHTHOUSE_MANUFACTURER_ID)
              | none => false)) := by
  cases props with
  | none => simp [isLighthouseScan]
  | some pr =>
    simp only [isLighthouseScan, foldl_or_eq_any, Bool.false_or]
    cases hs : strStartsWith (scanName (some pr)) LHB_PREFIX with
    | false => simp [hs]
    | true => simp [hs]

theorem classifyScan_eq_filter (ps : List Peripheral) (stations : List Peripheral)
    (h : classifyScan ps = Except.ok stations) :
    stations = ps.filter classifyPred := by
  induction ps generalizing stations with
  | nil =>
    simp only [classifyScan] at h
    cases h
    rfl
  | cons p rest ih =>
    simp only [classifyScan] at h
    cases hp : p.properties with
    | error e => rw [hp] at h; cases h
    | ok pr =>
      rw [hp] at h
      cases hrest : classifyScan rest with
      | error e => rw [hrest] at h; cases h
      | ok tail =>
        rw [hrest] at h
        simp only [Except.ok.injEq] at h
        subst h
        have htail := ih tail hrest
        subst htail
        show (if isLighthouseScan pr then p :: rest.filter classifyPred
              else rest.filter classifyPred) = (p :: rest).filter classifyPred
        simp only [List.filter_cons, classifyPred, hp]

theorem any_map_eq {α : Type} (f : α → String) (l : List α) (a : String) :
    (l.map f).any (fun x => x == a) = l.any (fun x => f x == a) := by
  induction l with
  | nil => rfl
  | cons x xs ih => simp only [List.map_cons, List.any_cons, ih]

theorem addrsDistinct_eq_map (l : List DeviceInfo) :
    addrsDistinct l = strsDistinct (l.map (fun d => d.address)) := by
  induction l with
  | nil => rfl
  | cons d rest ih =>
    simp only [addrsDistinct, strsDistinct, List.map_cons, ih, any_map_eq]

theorem periphAddrsDistinct_eq_map (l : List Peripheral) :
    periphAddrsDistinct l = strsDistinct (l.map (fun p => p.address)) := by
  induction l with
  | nil => rfl
  | cons p rest ih =>
    simp only [periphAddrsDistinct, strsDistinct, List.map_cons, ih, any_map_eq]

theorem strsDistinct_of_sublist {l1 l2 : List String}
    (h : List.Sublist l1 l2) (hd : strsDistinct l2 = true) :
    strsDistinct l1 = true := by
  induction h with
  | slnil => rfl
  | cons a _ ih =>
    rename_i ll rr hsub
    simp only [strsDistinct, Bool.and_eq_true] at hd
    exact ih hd.2
  | cons₂ a hsub ih =>
    rename_i ll rr
    simp only [strsDistinct, Bool.and_eq_true] at hd ⊢
    refine ⟨?_, ih hd.2⟩
    have hnot := hd.1
    cases hany : ll.any (fun x => x == a) with
    | false => rfl
    | true =>
      exfalso
      simp only [List.any_eq_true] at hany
      obtain ⟨x, hx, hxa⟩ := hany
      have : rr.any (fun x => x == a) = true := by
        simp only [List.any_eq_true]
        exact ⟨x, hsub.subset hx, hxa⟩
      rw [this] at hnot
      simp at hnot

theorem buildInfoList_addresses (stations : List Peripheral) (infos : List DeviceInfo)
    (h : buildInfoList stations = Except.ok infos) :
    infos.map (fun d => d.address) = stations.map (fun p => p.address) := by
  induction stations generalizing infos with
  | nil =>
    simp only [buildInfoList] at h
    cases h
    rfl
  | cons p rest ih =>
    simp only [buildInfoList] at h
    cases hp : p.properties with
    | error e => rw [hp] at h; cases h
    | ok pr =>
      rw [hp] at h
      simp only [peripheralToDeviceInfo, hp] at h
      cases hrest : buildInfoList rest with
      | error e => rw [hrest] at h; cases h
      | ok tail =>
        rw [hrest] at h
        simp only [Except.ok.injEq] at h
        subst h
        simp only [List.map_cons, ih tail hrest]

theorem processScanResults_ok_saved (ps : List Peripheral) (cmd : Nat)
    (save : Except String Unit) (r : ProcessResult) (infos : List DeviceInfo)
    (h : processScanResults ps cmd save = Except.ok r) (hs : r.saved = some infos) :
    ∃ stations, classifyScan ps = Except.ok stations
      ∧ buildInfoList stations = Except.ok infos ∧ r.lighthouses = stations := by
  simp only [processScanResults] at h
  by_cases hps : ps.isEmpty
  · simp only [hps, if_true] at h
    cases h
    simp at hs
  · simp only [hps, if_false] at h
    cases hc : classifyScan ps with
    | error e => rw [hc] at h; cases h
    | ok stations =>
      rw [hc] at h
      by_cases hst : stations.isEmpty
      · simp only [hst, if_true] at h
        cases h
        simp at hs
      · simp only [hst, if_false] at h
        cases hb : buildInfoList stations with
        | error e => rw [hb] at h; cases h
        | ok infos0 =>
          rw [hb] at h
          refine ⟨stations, rfl, ?_, ?_⟩
          · cases save with
            | ok u =>
              simp only at h
              by_cases hcmd : (cmd != NO_COMMAND) = true
              · simp only [hcmd, if_true] at h
                cases h
                simp only [Option.some.injEq] at hs
                rw [hs] at hb
                exact hb
              · simp only [hcmd, if_false] at h
                cases h
                simp only [Option.some.injEq] at hs
                rw [hs] at hb
                exact hb
            | error e =>
              simp only at h
              by_cases hcmd : (cmd != NO_COMMAND) = true
              · simp only [hcmd, if_true] at h
                cases h
                simp only [Option.some.injEq] at hs
                rw [hs] at hb
                exact hb
              · simp only [hcmd, if_false] at h
                cases h
                simp only [Option.some.injEq] at hs
                rw [hs] at hb
                exact hb
          · cases save with
            | ok u =>
              by_cases hcmd : (cmd != NO_COMMAND) = true
              · simp only [hcmd, if_true] at h; cases h; rfl
              · simp only [hcmd, if_false] at h; cases h; rfl
            | error e =>
              by_cases hcmd : (cmd != NO_COMMAND) = true
              · simp only [hcmd, if_true] at h; cases h; rfl
              · simp only [hcmd, if_false] at h; cases h; rfl

/-! ### Dispatcher helper lemmas -/

theorem sendOk_events (p : Peripheral) (cmd : Nat)
    (h : (sendCommandToDevice p cmd).1 = Except.ok ()) :
    ∃ u : Nat,
      (sendCommandToDevice p cmd).2
          = [BleEvent.connect p.address, BleEvent.write p.address u [cmd],
             BleEvent.disconnect p.address]
        ∨ (sendCommandToDevice p cmd).2
          = [BleEvent.write p.address u [cmd], BleEvent.disconnect p.address] := by
  cases hp : p.properties with
  | error e => simp [sendCommandToDevice, hp] at h
  | ok pr =>
    cases hc : p.isConnected with
    | true =>
      cases hd : p.discoverRes with
      | error e => simp [sendCommandToDevice, hp, hc, hd] at h
      | ok u0 =>
        cases hsel : selectChar p.services with
        | none => simp [sendCommandToDevice, hp, hc, hd, hsel] at h
        | some c =>
          cases hw : p.writeRes with
          | error e => simp [sendCommandToDevice, hp, hc, hd, hsel, hw] at h
          | ok u1 =>
            cases hdc : p.disconnectRes with
            | error e => simp [sendCommandToDevice, hp, hc, hd, hsel, hw, hdc] at h
            | ok u2 =>
              refine ⟨c.uuid, Or.inr ?_⟩
              simp [sendCommandToDevice, hp, hc, hd, hsel, hw, hdc]
    | false =>
      cases hcr : p.connectRes with
      | error e => simp [sendCommandToDevice, hp, hc, hcr] at h
      | ok u3 =>
        cases hd : p.discoverRes with
        | error e => simp [sendCommandToDevice, hp, hc, hcr, hd] at h
        | ok u0 =>
          cases hsel : selectChar p.services with
          | none => simp [sendCommandToDevice, hp, hc, hcr, hd, hsel] at h
          | some c =>
            cases hw : p.writeRes with
            | error e => simp [sendCommandToDevice, hp, hc, hcr, hd, hsel, hw] at h
            | ok u1 =>
              cases hdc : p.disconnectRes with
              | error e => simp [sendCommandToDevice, hp, hc, hcr, hd, hsel, hw, hdc] at h
              | ok u2 =>
                refine ⟨c.uuid, Or.inl ?_⟩
                simp [sendCommandToDevice, hp, hc, hcr, hd, hsel, hw, hdc]

theorem sendOk_countWrites (p : Peripheral) (cmd : Nat)
    (h : (sendCommandToDevice p cmd).1 = Except.ok ()) :
    (sendCommandToDevice p cmd).2.countP BleEvent.isWrite = 1 := by
  obtain ⟨u, hu | hu⟩ := sendOk_events p cmd h <;>
    rw [hu] <;>
    simp [List.countP_cons, BleEvent.isWrite]

theorem runBatch_eq_join (devices : List Peripheral) (cmd : Nat) :
    runBatch devices cmd
      = (devices.map (fun d => (sendCommandToDevice d cmd).2)).flatten := by
  induction devices with
  | nil => rfl
  | cons d rest ih =>
    simp only [List.map_cons, List.flatten]
    cases hsend : sendCommandToDevice d cmd with
    | mk res evs =>
      cases res <;> simp [runBatch, hsend, ih]

theorem atMostOneOpenAux_block1 (a : String) (u : Nat) (bs : List Nat)
    (rest : List BleEvent) :
    atMostOneOpenAux
        ([BleEvent.connect a, BleEvent.write a u bs, BleEvent.disconnect a] ++ rest) []
      = atMostOneOpenAux rest [] := by
  simp [atMostOneOpenAux, List.erase_cons_head]

theorem atMostOneOpenAux_block2 (a : String) (u : Nat) (bs : List Nat)
    (rest : List BleEvent) :
    atMostOneOpenAux
        ([BleEvent.write a u bs, BleEvent.disconnect a] ++ rest) []
      = atMostOneOpenAux rest [] := by
  simp [atMostOneOpenAux, List.erase_nil]

theorem batch_allOk_atMostOneOpen (devices : List Peripheral) (cmd : Nat)
    (h : ∀ d ∈ devices, (sendCommandToDevice d cmd).1 = Except.ok ()) :
    atMostOneOpen (runBatch devices cmd) = true := by
  unfold atMostOneOpen
  induction devices with
  | nil => rfl
  | cons d rest ih =>
    have hd := h d (by simp)
    have hrest : ∀ x ∈ rest, (sendCommandToDevice x cmd).1 = Except.ok () :=
      fun x hx => h x (by simp [hx])
    have hb : runBatch (d :: rest) cmd
        = (sendCommandToDevice d cmd).2 ++ runBatch rest cmd := by
      simp only [runBatch]
      cases hsend : sendCommandToDevice d cmd with
      | mk res evs => cases res <;> simp [hsend]
    obtain ⟨u, hu | hu⟩ := sendOk_events d cmd hd
    · rw [hb, hu, atMostOneOpenAux_block1]
      exact ih hrest
    · rw [hb, hu, atMostOneOpenAux_block2]
      exact ih hrest

theorem findCharLoop_eq_pickFrom (cs : List Characteristic)
    (t : Option Characteristic) :
    findCharLoop cs t = pickFrom cs t := by
  induction cs generalizing t with
  | nil => cases t <;> rfl
  | cons c rest ih =>
    cases he : (c.uuid == LIGHTHOUSE_CHAR_UUID) with
    | true =>
      simp [findCharLoop, pickFrom, firstExact, List.find?, he]
    | false =>
      cases hw : isWritableChar c with
      | true =>
        have hloop : findCharLoop (c :: rest) t = findCharLoop rest (some c) := by
          simp [findCharLoop, he, isWritableChar] at hw ⊢
          rcases hw with hw | hw <;> simp [hw]
        rw [hloop, ih]
        simp only [pickFrom, firstExact, List.find?, he, List.filter_cons, hw,
          if_true]
        cases hfind : rest.find? (fun c => c.uuid == LIGHTHOUSE_CHAR_UUID) with
        | some d => simp
        | none =>
          simp only
          cases hlast : (rest.filter isWritableChar).getLast? with
          | some d =>
            rw [List.getLast?_cons, hlast]
            simp
          | none =>
            rw [List.getLast?_cons, hlast]
            simp
      | false =>
        have hloop : findCharLoop (c :: rest) t = findCharLoop rest t := by
          simp [findCharLoop, he, isWritableChar] at hw ⊢
          simp [hw]
        rw [hloop, ih]
        simp [pickFrom, firstExact, List.find?, he, List.filter_cons, hw]

theorem findCharLoop_nomatch (cs : List Characteristic) (t : Option Characteristic)
    (h : ∀ c ∈ cs, charMatches c = false) :
    findCharLoop cs t = t := by
  induction cs generalizing t with
  | nil => rfl
  | cons c rest ih =>
    have hc := h c (by simp)
    simp only [charMatches, Bool.or_eq_false_iff] at hc
    simp only [findCharLoop, hc.1, isWritableChar] at *
    have hw : (c.write || c.writeWithoutResponse) = false := hc.2
    simp only [hw, Bool.or_self, if_false]
    exact ih t (fun x hx => h x (by simp [hx]))

theorem findServiceLoop_nomatch (services : List Service) (t : Option Characteristic)
    (h : ∀ s ∈ services, ∀ c ∈ s.characteristics, charMatches c = false) :
    findServiceLoop services t = t := by
  induction services generalizing t with
  | nil => rfl
  | cons s rest ih =>
    have hs : findCharLoop s.characteristics t = t :=
      findCharLoop_nomatch _ _ (h s (by simp))
    have hrest : ∀ x ∈ rest, ∀ c ∈ x.characteristics, charMatches c = false :=
      fun x hx => h x (by simp [hx])
    simp only [findServiceLoop]
    cases hcond : (s.uuid == LIGHTHOUSE_SERVICE_UUID || t.isNone) with
    | false => exact ih t hrest
    | true =>
      simp only [hs]
      cases hbr : (t.isSome && s.uuid == LIGHTHOUSE_SERVICE_UUID) with
      | true => rfl
      | false => exact ih t hrest

theorem findServiceLoop_lh_exact (s : Service) (post : List Service)
    (c : Characteristic) (t : Option Characteristic)
    (hu : (s.uuid == LIGHTHOUSE_SERVICE_UUID) = true)
    (he : firstExact s.characteristics = some c) :
    findServiceLoop (s :: post) t = some c := by
  have hchar : findCharLoop s.characteristics t = some c := by
    rw [findCharLoop_eq_pickFrom]
    simp [pickFrom, he]
  simp [findServiceLoop, hu, hchar]

theorem findServiceLoop_append_nonlh (pre rest : List Service)
    (t : Option Characteristic)
    (hpre : ∀ u ∈ pre, (u.uuid == LIGHTHOUSE_SERVICE_UUID) = false) :
    ∃ t2, findServiceLoop (pre ++ rest) t = findServiceLoop rest t2 := by
  induction pre generalizing t with
  | nil => exact ⟨t, rfl⟩
  | cons u pre ih =>
    have hu := hpre u (by simp)
    have hpre2 : ∀ v ∈ pre, (v.uuid == LIGHTHOUSE_SERVICE_UUID) = false :=
      fun v hv => hpre v (by simp [hv])
    simp only [List.cons_append, findServiceLoop, hu, Bool.false_or,
      Bool.and_false]
    cases ht : t.isNone with
    | true =>
      simp only [if_true]
      exact ih (findCharLoop u.characteristics t) hpre2
    | false =>
      simp only [Bool.false_eq_true, if_false]
      exact ih t hpre2

theorem findServiceLoop_nonlh_some (services : List Service) (c : Characteristic)
    (h : ∀ s ∈ services, (s.uuid == LIGHTHOUSE_SERVICE_UUID) = false) :
    findServiceLoop services (some c) = some c := by
  induction services with
  | nil => rfl
  | cons s rest ih =>
    have hs := h s (by simp)
    simp only [findServiceLoop, hs, Bool.false_or, Option.isNone_some, if_false]
    exact ih (fun x hx => h x (by simp [hx]))

theorem findServiceLoop_nonlh_none (services : List Service)
    (h : ∀ s ∈ services, (s.uuid == LIGHTHOUSE_SERVICE_UUID) = false) :
    findServiceLoop services none = services.findSome? servicePick := by
  induction services with
  | nil => rfl
  | cons s rest ih =>
    have hs := h s (by simp)
    have hrest : ∀ x ∈ rest, (x.uuid == LIGHTHOUSE_SERVICE_UUID) = false :=
      fun x hx => h x (by simp [hx])
    simp only [findServiceLoop, hs, Bool.false_or, Option.isNone_none, if_true,
      Bool.and_false]
    rw [findCharLoop_eq_pickFrom]
    cases hpick : pickFrom s.characteristics none with
    | some c =>
      simp only [List.findSome?]
      have : servicePick s = some c := hpick
      rw [this]
      simp only
      exact findServiceLoop_nonlh_some rest c hrest
    | none =>
      simp only [List.findSome?]
      have : servicePick s = none := hpick
      rw [this]
      simp only
      exact ih hrest

theorem send_noChar (p : Peripheral) (cmd : Nat) (pr : Option PeripheralProperties)
    (hp : p.properties = Except.ok pr) (hd : p.discoverRes = Except.ok ())
    (hconn : p.isConnected = true ∨ p.connectRes = Except.ok ())
    (hsel : selectChar p.services = none) :
    (sendCommandToDevice p cmd).1 = Except.error "No writable characteristic found"
      ∧ ∀ e ∈ (sendCommandToDevice p cmd).2, BleEvent.isWrite e = false := by
  cases hc : p.isConnected with
  | true =>
    constructor
    · simp [sendCommandToDevice, hp, hc, hd, hsel]
    · intro e he
      simp [sendCommandToDevice, hp, hc, hd, hsel] at he
  | false =>
    rcases hconn with hconn | hconn
    · rw [hc] at hconn; cases hconn
    · constructor
      · simp [sendCommandToDevice, hp, hc, hconn, hd, hsel]
      · intro e he
        simp [sendCommandToDevice, hp, hc, hconn, hd, hsel] at he
        rw [he]
        rfl


theorem mem_filter_addr (cached : List DeviceInfo) (S : List Peripheral) (a : String) :
    (a ∈ (S.filter (fun p => cached.any (fun d => d.address == p.address))).map
        (fun p => p.address))
      ↔ (a ∈ cached.map (fun d => d.address) ∧ a ∈ S.map (fun p => p.address)) := by
  simp only [List.mem_map, List.mem_filter, List.any_eq_true, beq_iff_eq]
  constructor
  · rintro ⟨p, ⟨hpS, d, hd, hda⟩, rfl⟩
    exact ⟨⟨d, hd, hda⟩, ⟨p, hpS, rfl⟩⟩
  · rintro ⟨⟨d, hd, hda⟩, ⟨p, hpS, hpa⟩⟩
    exact ⟨p, ⟨hpS, d, hd, hda.trans hpa.symm⟩, hpa⟩

theorem hasCacheFlow_ok_env (cached : List DeviceInfo) (n : Nat) (info : String)
    (S : List Peripheral) (stop : Except String Unit) (cmd : Nat) (json : Bool)
    (u : String) (fe : ScanEnv) (fsave : Except String Unit)
    (ra : Except String (List DeviceInfo)) :
    hasCacheFlow cached
        ⟨Except.ok (), Except.ok (n + 1), Except.ok info, Except.ok (),
          Except.ok S, stop⟩ cmd json u fe fsave ra
      = (let warns :=
          match stop with
          | Except.error e => ["Warning: Failed to stop Bluetooth scan: " ++ e]
          | Except.ok _ => [];
         let L := S.filter (fun p => cached.any (fun d => d.address == p.address));
         if L.isEmpty then
           if json then
             ⟨CmdOutcome.exited EXIT_NO_DEVICES_FOUND
                (some (errorResp "No cached devices found in the current scan"
                  EXIT_NO_DEVICES_FOUND)), [], warns⟩
           else
             if asciiTrim u == "y" || asciiTrim u == "Y" then
               match scanProcessAndSave fe cmd fsave with
               | (Except.ok _, disp) =>
                 ⟨CmdOutcome.completed
                    (respIf json
                      (successResp "Successfully executed command on new devices"
                        (unwrapOrDefault ra))), disp, warns⟩
               | (Except.error e, disp) =>
                 ⟨CmdOutcome.exited EXIT_COMMAND_FAILED
                    (respIf json
                      (errorResp ("Failed to execute command: " ++ e)
                        EXIT_COMMAND_FAILED)), disp, warns⟩
             else
               ⟨CmdOutcome.exited EXIT_NO_DEVICES_FOUND
                  (respIf json
                    (errorResp "User chose not to perform a new scan"
                      EXIT_NO_DEVICES_FOUND)), [], warns⟩
         else
           ⟨CmdOutcome.completed (respIf json (dispatchSuccessResponse
              (S.filter (fun p => cached.any (fun d => d.address == p.address))) cmd)),
            S.filter (fun p => cached.any (fun d => d.address == p.address)), warns⟩) :=
  rfl

theorem filterMap_length_of_all_some {α β : Type} (f : α → Option β) (l : List α)
    (h : ∀ x ∈ l, (f x).isSome = true) :
    (l.filterMap f).length = l.length := by
  induction l with
  | nil => rfl
  | cons x xs ih =>
    have hx := h x (by simp)
    cases hfx : f x with
    | none => rw [hfx] at hx; cases hx
    | some b =>
      simp only [List.filterMap_cons, hfx, List.length_cons]
      rw [ih (fun y hy => h y (by simp [hy]))]

/-! ## Claim theorems -/

/-- Claim C3: for every peripheral, classification is a pure
deterministic predicate over advertisement data: classified as a
lighthouse iff the advertised local name starts with the literal prefix
"LHB" and the manufacturer-data map contains the key 1373 (value bytes
not inspected); a peripheral with no advertised local name defaults to
the name "Unknown" and is never classified; the power-on/standby
classifier decides the same predicate; and the classified station list
is exactly the scan list filtered by the predicate. -/
theorem claim3_classifier_pure_predicate :
    (∀ props : Option PeripheralProperties,
        isLighthouseScan props
          = (strStartsWith (scanName props) LHB_PREFIX
              && (match props with
                  | some pr =>
                      pr.manufacturer_data.any
                        (fun kv => kv.1 == LIGHTHOUSE_MANUFACTURER_ID)
                  | none => false)))
  ∧ (∀ pr : PeripheralProperties,
        isLighthousePower pr
          = (strStartsWith (pr.local_name.getD "Unknown") LHB_PREFIX
              && pr.manufacturer_data.any
                   (fun kv => kv.1 == LIGHTHOUSE_MANUFACTURER_ID)))
  ∧ (∀ props : Option PeripheralProperties,
        (props.bind fun pr => pr.local_name) = none →
          scanName props = "Unknown" ∧ isLighthouseScan props = false)
  ∧ (∀ ps stations, classifyScan ps = Except.ok stations →
        stations = ps.filter classifyPred) := by
  refine ⟨isLighthouseScan_eq_spec, ?_, ?_, classifyScan_eq_filter⟩
  · intro pr
    cases h : pr.local_name with
    | none =>
      simp only [isLighthousePower, h, Option.getD_none]
      rw [show strStartsWith "" LHB_PREFIX = false from rfl,
        show strStartsWith "Unknown" LHB_PREFIX = false from rfl]
    | some n => simp [isLighthousePower, h]
  · intro props h
    have hname : scanName props = "Unknown" := by
      simp [scanName, h]
    refine ⟨hname, ?_⟩
    rw [isLighthouseScan_eq_spec, hname,
      show strStartsWith "Unknown" LHB_PREFIX = false from rfl]
    simp

/-- Witness for C3: a peripheral advertising manufacturer id 1373 but no
local name gets the name "Unknown" and is not classified. -/
theorem claim3_classifier_pure_predicate_witness :
    scanName (some ⟨none, [(1373, [0])]⟩) = "Unknown"
      ∧ isLighthouseScan (some ⟨none, [(1373, [0])]⟩) = false :=
  claim3_classifier_pure_predicate.2.2.1 (some ⟨none, [(1373, [0])]⟩) rfl

/-- Claim C6 counterexample: two classified peripherals sharing the
address "AA:BB" are both kept; the list passed to save has a duplicated
address, so no deduplication by address happens before persisting. -/
theorem claim6_dedup_counterexample :
    processScanResults [sampleDupA, sampleDupB] NO_COMMAND (Except.ok ())
        = Except.ok ⟨[sampleDupA, sampleDupB],
            some [⟨"LHB-B91A", "AA:BB"⟩, ⟨"LHB-C222", "AA:BB"⟩], []⟩
      ∧ addrsDistinct [⟨"LHB-B91A", "AA:BB"⟩, ⟨"LHB-C222", "AA:BB"⟩] = false :=
  ⟨rfl, rfl⟩

/-- Claim C6 amended: the list passed to save is the classified scan
list converted record by record — no deduplication is performed — so its
addresses are exactly the classified peripherals' addresses, and it is
duplicate-free exactly when the scanned peripherals' addresses already
were pairwise distinct. -/
theorem claim6_dedup_amended (ps : List Peripheral) (cmd : Nat)
    (save : Except String Unit) (r : ProcessResult) (infos : List DeviceInfo)
    (h : processScanResults ps cmd save = Except.ok r) (hs : r.saved = some infos) :
    infos.map (fun d => d.address) = (ps.filter classifyPred).map (fun p => p.address)
      ∧ (periphAddrsDistinct ps = true → addrsDistinct infos = true) := by
  obtain ⟨stations, hc, hb, hlh⟩ := processScanResults_ok_saved ps cmd save r infos h hs
  have hst := classifyScan_eq_filter ps stations hc
  have haddr := buildInfoList_addresses stations infos hb
  subst hst
  refine ⟨by rw [haddr], ?_⟩
  intro hdist
  rw [addrsDistinct_eq_map, haddr]
  rw [periphAddrsDistinct_eq_map] at hdist
  exact strsDistinct_of_sublist ((List.filter_sublist ps).map _) hdist

/-- Witness for the amended C6: a single classified lighthouse produces
a single saved record with matching address, trivially duplicate-free. -/
theorem claim6_dedup_amended_witness :
    ([(⟨"LHB-C222", "BB:BB"⟩ : DeviceInfo)]).map (fun d => d.address)
        = ([sampleGoodDev].filter classifyPred).map (fun p => p.address)
      ∧ (periphAddrsDistinct [sampleGoodDev] = true
          → addrsDistinct [(⟨"LHB-C222", "BB:BB"⟩ : DeviceInfo)] = true) :=
  claim6_dedup_amended [sampleGoodDev] POWERON_COMMAND (Except.ok ())
    ⟨[sampleGoodDev], some [⟨"LHB-C222", "BB:BB"⟩], [sampleGoodDev]⟩
    [⟨"LHB-C222", "BB:BB"⟩] rfl rfl

/-- Claim C7 counterexample: a cache read/parse failure makes
handle_device_command_mode print an error and exit with code 1 — it does
not proceed as if there were no cached devices (the empty-cache run ends
differently). -/
theorem claim7_load_failure_counterexample :
    (handleDeviceCommandMode (Except.error "parse error") envMouse POWERON_COMMAND
        true "n" envMouse (Except.ok ()) (Except.ok [])).outcome
        = CmdOutcome.exited EXIT_GENERAL_ERROR
            (some (errorResp "Failed to load known devices: parse error"
              EXIT_GENERAL_ERROR))
      ∧ (handleDeviceCommandMode (Except.error "parse error") envMouse POWERON_COMMAND
          true "n" envMouse (Except.ok ()) (Except.ok [])).outcome
        ≠ (handleDeviceCommandMode (Except.ok []) envMouse POWERON_COMMAND
            true "n" envMouse (Except.ok ()) (Except.ok [])).outcome :=
  ⟨rfl, by decide⟩

/-- Claim C7 amended: load() returns the empty list, not an error, when
the cache file does not exist; but when load fails for another reason
the command-mode handler aborts with exit code 1 (general error) instead
of treating it as an empty cache. -/
theorem claim7_load_contract_amended :
    (∀ fs : CacheFs, fs.configPathOk = Except.ok () → fs.fileExists = false →
        loadDevices fs = Except.ok [])
  ∧ (∀ (e : String) (env freshEnv : ScanEnv) (cmd : Nat) (json : Bool) (u : String)
        (fsave : Except String Unit) (ra : Except String (List DeviceInfo)),
        handleDeviceCommandMode (Except.error e) env cmd json u freshEnv fsave ra
          = ⟨CmdOutcome.exited EXIT_GENERAL_ERROR
              (respIf json
                (errorResp ("Failed to load known devices: " ++ e)
                  EXIT_GENERAL_ERROR)),
             [], []⟩) := by
  constructor
  · intro fs h1 h2
    simp [loadDevices, h1, h2]
  · intro e env freshEnv cmd json u fsave ra
    rfl

/-- Witness for the amended C7: with the file absent, load returns the
empty list even though reading would have failed. -/
theorem claim7_load_contract_amended_witness :
    loadDevices ⟨Except.ok (), false, Except.error "unreadable"⟩ = Except.ok [] :=
  claim7_load_contract_amended.1 ⟨Except.ok (), false, Except.error "unreadable"⟩
    rfl rfl

/-- Claim C10: on the fresh-scan path a cache-save failure is only
logged: the pipeline result is identical to the one with a successful
save, and the requested command is still dispatched to every classified
device. -/
theorem claim10_save_failure_dispatch (ps : List Peripheral) (cmd : Nat) (e : String) :
    processScanResults ps cmd (Except.error e) = processScanResults ps cmd (Except.ok ())
      ∧ (∀ stations infos,
          classifyScan ps = Except.ok stations → stations.isEmpty = false →
          buildInfoList stations = Except.ok infos → (cmd != NO_COMMAND) = true →
          processScanResults ps cmd (Except.error e)
            = Except.ok ⟨stations, some infos, stations⟩) := by
  constructor
  · simp only [processScanResults]
  · intro stations infos hc hst hb hcmd
    have hps : ps.isEmpty = false := by
      cases ps with
      | nil =>
        simp only [classifyScan, Except.ok.injEq] at hc
        rw [← hc] at hst
        cases hst
      | cons p rest => rfl
    simp only [processScanResults, hps, hc, hst, hb, hcmd]
    rfl

/-- Witness for C10: with a failing save, the one classified lighthouse
is still dispatched the power-on command. -/
theorem claim10_save_failure_dispatch_witness :
    processScanResults [sampleGoodDev] POWERON_COMMAND (Except.error "disk full")
      = Except.ok ⟨[sampleGoodDev], some [⟨"LHB-C222", "BB:BB"⟩], [sampleGoodDev]⟩ :=
  (claim10_save_failure_dispatch [sampleGoodDev] POWERON_COMMAND "disk full").2
    [sampleGoodDev] [⟨"LHB-C222", "BB:BB"⟩] rfl rfl rfl rfl

/-- Claim C1: in the cached-devices (HasCache) flow, the dispatch set is
exactly the scanned peripherals whose address appears in the cache — as
address sets, cache-and-visible intersection; cached devices not visible
are silently skipped inside a success outcome; and when the intersection
is empty in JSON (automated) mode the flow exits with NoDevicesFound
(code 3), an empty devices list, and dispatches nothing. -/
theorem claim1_hascache_reconciliation (cached : List DeviceInfo) (n : Nat)
    (info : String) (S : List Peripheral) (stop : Except String Unit) (cmd : Nat)
    (json : Bool) (u : String) (fe : ScanEnv) (fsave : Except String Unit)
    (ra : Except String (List DeviceInfo)) :
    ((S.filter (fun p => cached.any (fun d => d.address == p.address))).isEmpty = false →
        (hasCacheFlow cached
            ⟨Except.ok (), Except.ok (n + 1), Except.ok info, Except.ok (),
              Except.ok S, stop⟩ cmd json u fe fsave ra).dispatched
          = S.filter (fun p => cached.any (fun d => d.address == p.address))
        ∧ (hasCacheFlow cached
            ⟨Except.ok (), Except.ok (n + 1), Except.ok info, Except.ok (),
              Except.ok S, stop⟩ cmd json u fe fsave ra).outcome
          = CmdOutcome.completed
              (respIf json
                (dispatchSuccessResponse
                  (S.filter (fun p => cached.any (fun d => d.address == p.address)))
                  cmd))
        ∧ (∀ a : String,
            a ∈ ((hasCacheFlow cached
                ⟨Except.ok (), Except.ok (n + 1), Except.ok info, Except.ok (),
                  Except.ok S, stop⟩ cmd json u fe fsave ra).dispatched.map
                  (fun p => p.address))
              ↔ (a ∈ cached.map (fun d => d.address)
                  ∧ a ∈ S.map (fun p => p.address))))
  ∧ ((S.filter (fun p => cached.any (fun d => d.address == p.address))).isEmpty = true →
      json = true →
        (hasCacheFlow cached
            ⟨Except.ok (), Except.ok (n + 1), Except.ok info, Except.ok (),
              Except.ok S, stop⟩ cmd json u fe fsave ra).outcome
          = CmdOutcome.exited EXIT_NO_DEVICES_FOUND
              (some (errorResp "No cached devices found in the current scan"
                EXIT_NO_DEVICES_FOUND))
        ∧ (hasCacheFlow cached
            ⟨Except.ok (), Except.ok (n + 1), Except.ok info, Except.ok (),
              Except.ok S, stop⟩ cmd json u fe fsave ra).dispatched = []
        ∧ (errorResp "No cached devices found in the current scan"
            EXIT_NO_DEVICES_FOUND).devices = []) := by
  rw [hasCacheFlow_ok_env]
  constructor
  · intro hF
    simp only [hF, Bool.false_eq_true, if_false]
    refine ⟨?_, ?_, fun a => mem_filter_addr cached S a⟩ <;> trivial
  · intro hF hj
    simp only [hF, hj, if_true]
    refine ⟨?_, ?_, ?_⟩ <;> trivial

/-- Witness for C1: cache ["AA:BB"], scan sees "AA:BB" — dispatched;
cache ["AA:BB"], scan sees only "CC:DD" in JSON mode — exit 3, nothing
dispatched. -/
theorem claim1_hascache_reconciliation_witness :
    ((hasCacheFlow sampleCached
        ⟨Except.ok (), Except.ok (0 + 1), Except.ok "hci0", Except.ok (),
          Except.ok [sampleDupA], okUnit⟩ POWERON_COMMAND true "n" envMouse okUnit
        (Except.ok [])).dispatched
      = [sampleDupA].filter
          (fun p => sampleCached.any (fun d => d.address == p.address)))
  ∧ ((hasCacheFlow sampleCached
        ⟨Except.ok (), Except.ok (0 + 1), Except.ok "hci0", Except.ok (),
          Except.ok [sampleLhDevCD], okUnit⟩ POWERON_COMMAND true "n" envMouse okUnit
        (Except.ok [])).outcome
      = CmdOutcome.exited EXIT_NO_DEVICES_FOUND
          (some (errorResp "No cached devices found in the current scan"
            EXIT_NO_DEVICES_FOUND))) :=
  ⟨(claim1_hascache_reconciliation sampleCached 0 "hci0" [sampleDupA] okUnit
      POWERON_COMMAND true "n" envMouse okUnit (Except.ok [])).1 rfl |>.1,
   ((claim1_hascache_reconciliation sampleCached 0 "hci0" [sampleLhDevCD] okUnit
      POWERON_COMMAND true "n" envMouse okUnit (Except.ok [])).2 rfl rfl).1⟩

/-- Claim C2 counterexample: empty cache, fresh scan classifies no
lighthouse (one non-lighthouse peripheral visible), JSON mode, command
--poweron: the run completes with a success response, error_code 0 — not
the claimed NoDevicesFound error_code 3. -/
theorem claim2_empty_classified_counterexample :
    handleDeviceCommandMode (Except.ok []) envMouse POWERON_COMMAND true "n" envMouse
        (Except.ok ()) (Except.ok [])
      = ⟨CmdOutcome.completed
          (some (successResp "Successfully scanned and executed command" [])),
         [], []⟩
      ∧ (successResp "Successfully scanned and executed command" []).errorCode = 0
      ∧ (successResp "Successfully scanned and executed command" []).success = true
      ∧ (successResp "Successfully scanned and executed command" []).errorCode
          ≠ EXIT_NO_DEVICES_FOUND :=
  ⟨rfl, rfl, rfl, by decide⟩

/-- Claim C2 amended: in the NoCache flow a command-dispatch operation
whose classified set is empty terminates with the same success outcome
(error_code 0) as the --devices/scan paths, dispatching nothing; the
NoDevicesFound error is produced only by the HasCache empty-intersection
branch. -/
theorem claim2_empty_classified_amended (n : Nat) (info : String)
    (S : List Peripheral) (cmd : Nat) (json : Bool) (fsave : Except String Unit)
    (ra : Except String (List DeviceInfo))
    (hclass : classifyScan S = Except.ok []) :
    noCacheFlow
        ⟨Except.ok (), Except.ok (n + 1), Except.ok info, Except.ok (),
          Except.ok S, Except.ok ()⟩ cmd json fsave ra
      = ⟨CmdOutcome.completed
          (respIf json
            (successResp "Successfully scanned and executed command"
              (unwrapOrDefault ra))), [], []⟩ := by
  cases S with
  | nil => rfl
  | cons p rest =>
    simp [noCacheFlow, scanProcessAndSave, processScanResults, hclass]

/-- Witness for the amended C2: concrete run with one non-lighthouse
peripheral. -/
theorem claim2_empty_classified_amended_witness :
    noCacheFlow
        ⟨Except.ok (), Except.ok (0 + 1), Except.ok "hci0", Except.ok (),
          Except.ok [sampleMouseDev], Except.ok ()⟩ POWERON_COMMAND true
        (Except.ok ()) (Except.ok [])
      = ⟨CmdOutcome.completed
          (some (successResp "Successfully scanned and executed command"
            (unwrapOrDefault (Except.ok [])))), [], []⟩ :=
  claim2_empty_classified_amended 0 "hci0" [sampleMouseDev] POWERON_COMMAND true
    (Except.ok ()) (Except.ok []) rfl

/-- Claim C4: batch dispatch isolation — the batch loop always returns
Ok (so the caller reports success=true, error_code 0); the event trace
is the concatenation of each device's own send trace, independent of the
other devices' outcomes; a device whose send succeeds gets exactly one
write; and the reported count equals the number of devices in the batch
(one send attempt each) whenever their properties reads succeed. -/
theorem claim4_batch_isolation (devices : List Peripheral) (cmd : Nat) :
    (handleDeviceCommand devices cmd).1 = Except.ok ()
  ∧ (handleDeviceCommand devices cmd).2
      = (devices.map (fun d => (sendCommandToDevice d cmd).2)).flatten
  ∧ (∀ d, (sendCommandToDevice d cmd).1 = Except.ok () →
        (sendCommandToDevice d cmd).2.countP BleEvent.isWrite = 1)
  ∧ ((dispatchSuccessResponse devices cmd).success = true
      ∧ (dispatchSuccessResponse devices cmd).errorCode = EXIT_SUCCESS)
  ∧ ((∀ d ∈ devices, ∃ pr, d.properties = Except.ok pr) →
        (dispatchSuccessResponse devices cmd).devices.length = devices.length) := by
  refine ⟨rfl, runBatch_eq_join devices cmd, fun d => sendOk_countWrites d cmd,
    ⟨rfl, rfl⟩, ?_⟩
  intro hprops
  unfold dispatchSuccessResponse
  simp only [successResp]
  apply filterMap_length_of_all_some
  intro d hd
  obtain ⟨pr, hpr⟩ := hprops d hd
  simp [peripheralToDeviceInfo, hpr, resToOption]

/-- Witness for C4: a two-device batch in which the first device has no
writable characteristic (its send fails) still ends Ok, the second
device gets its single write, and the response counts both devices. -/
theorem claim4_batch_isolation_witness :
    (handleDeviceCommand [sampleNoCharDev, sampleGoodDev] POWERON_COMMAND).1
        = Except.ok ()
      ∧ (sendCommandToDevice sampleGoodDev POWERON_COMMAND).2.countP
          BleEvent.isWrite = 1
      ∧ (dispatchSuccessResponse [sampleNoCharDev, sampleGoodDev]
          POWERON_COMMAND).devices.length = 2 := by
  refine ⟨(claim4_batch_isolation [sampleNoCharDev, sampleGoodDev] POWERON_COMMAND).1,
    (claim4_batch_isolation [sampleNoCharDev, sampleGoodDev]
      POWERON_COMMAND).2.2.1 sampleGoodDev rfl, ?_⟩
  have h := (claim4_batch_isolation [sampleNoCharDev, sampleGoodDev]
    POWERON_COMMAND).2.2.2.2 ?_
  · exact h
  · intro d hd
    fin_cases hd
    · exact ⟨some sampleLhProps, rfl⟩
    · exact ⟨some sampleLhProps2, rfl⟩

/-- Claim C8 counterexample: a fresh scan that found and dispatched to a
lighthouse, but whose stop-scan call fails, ends with the operation
result being that error — the stop-scan failure is fatal to the result
in scan_process_and_save, contrary to the claim. -/
theorem claim8_stopscan_counterexample :
    (scanProcessAndSave envStopFail POWERON_COMMAND okUnit).1
        = Except.error "stop failed"
      ∧ (scanProcessAndSave envStopFail POWERON_COMMAND okUnit).2
        = [sampleGoodDev] :=
  ⟨rfl, rfl⟩

/-- Claim C8 amended: the stop-scan failure is logged and non-fatal only
in the cached-devices flow of handle_device_command_mode, whose outcome
and dispatch set do not depend on the stop result; in
scan_process_and_save the stop-scan error propagates and becomes the
operation's result (after processing and dispatch have already
happened). -/
theorem claim8_stopscan_amended :
    (∀ (cached : List DeviceInfo) (m : Except String Unit) (ac : Except String Nat)
        (ai : Except String String) (ss : Except String Unit)
        (ps : Except String (List Peripheral)) (x y : Except String Unit) (cmd : Nat)
        (json : Bool) (u : String) (fe : ScanEnv) (fsave : Except String Unit)
        (ra : Except String (List DeviceInfo)),
        (hasCacheFlow cached ⟨m, ac, ai, ss, ps, x⟩ cmd json u fe fsave ra).outcome
          = (hasCacheFlow cached ⟨m, ac, ai, ss, ps, y⟩ cmd json u fe fsave ra).outcome
        ∧ (hasCacheFlow cached ⟨m, ac, ai, ss, ps, x⟩ cmd json u fe fsave ra).dispatched
          = (hasCacheFlow cached ⟨m, ac, ai, ss, ps, y⟩ cmd json u fe fsave
              ra).dispatched)
  ∧ (∀ (n : Nat) (info : String) (S : List Peripheral) (cmd : Nat)
        (save : Except String Unit) (r : ProcessResult) (e : String),
        processScanResults S cmd save = Except.ok r →
        scanProcessAndSave
            ⟨Except.ok (), Except.ok (n + 1), Except.ok info, Except.ok (),
              Except.ok S, Except.error e⟩ cmd save
          = (Except.error e, r.dispatched)) := by
  constructor
  · intro cached m ac ai ss ps x y cmd json u fe fsave ra
    constructor <;>
      (simp only [hasCacheFlow]
       repeat (first | rfl | split))
  · intro n info S cmd save r e h
    simp [scanProcessAndSave, h]

/-- Witness for the amended C8: concrete stop-failure run of
scan_process_and_save; the result is the stop error while the classified
device had already been dispatched. -/
theorem claim8_stopscan_amended_witness :
    scanProcessAndSave
        ⟨Except.ok (), Except.ok (0 + 1), Except.ok "hci0", Except.ok (),
          Except.ok [sampleGoodDev], Except.error "stop failed"⟩ POWERON_COMMAND
        okUnit
      = (Except.error "stop failed", [sampleGoodDev]) :=
  claim8_stopscan_amended.2 0 "hci0" [sampleGoodDev] POWERON_COMMAND okUnit
    ⟨[sampleGoodDev], some [⟨"LHB-C222", "BB:BB"⟩], [sampleGoodDev]⟩ "stop failed" rfl

/-- Claim C9 counterexample: batch of two devices where the first send
fails (no writable characteristic): the first device is connected and
never disconnected, the second device is then connected — two
connections are open at once, and no teardown precedes the next device. -/
theorem claim9_teardown_counterexample :
    runBatch [sampleNoCharDev, sampleGoodDev] POWERON_COMMAND
        = [BleEvent.connect "AA:AA", BleEvent.connect "BB:BB",
           BleEvent.write "BB:BB" LIGHTHOUSE_CHAR_UUID [POWERON_COMMAND],
           BleEvent.disconnect "BB:BB"]
      ∧ atMostOneOpen (runBatch [sampleNoCharDev, sampleGoodDev] POWERON_COMMAND)
        = false :=
  ⟨rfl, rfl⟩

/-- Claim C9 amended: at most one connection is held at a time, and each
device's connection is torn down before the next device, provided every
send in the batch succeeds; a failed send returns early without
disconnecting and leaves its device connected. -/
theorem claim9_teardown_amended (devices : List Peripheral) (cmd : Nat)
    (h : ∀ d ∈ devices, (sendCommandToDevice d cmd).1 = Except.ok ()) :
    atMostOneOpen (runBatch devices cmd) = true
      ∧ ∀ d ∈ devices, ∃ u,
          (sendCommandToDevice d cmd).2
              = [BleEvent.connect d.address, BleEvent.write d.address u [cmd],
                 BleEvent.disconnect d.address]
            ∨ (sendCommandToDevice d cmd).2
              = [BleEvent.write d.address u [cmd], BleEvent.disconnect d.address] :=
  ⟨batch_allOk_atMostOneOpen devices cmd h,
   fun d hd => sendOk_events d cmd (h d hd)⟩

/-- Witness for the amended C9: a batch of one succeeding device keeps
at most one connection open. -/
theorem claim9_teardown_amended_witness :
    atMostOneOpen (runBatch [sampleGoodDev] POWERON_COMMAND) = true :=
  (claim9_teardown_amended [sampleGoodDev] POWERON_COMMAND
    (by intro d hd; fin_cases hd; rfl)).1

/-- Claim C5 counterexample: one non-lighthouse service with two
writable characteristics and no exact-UUID match: the code selects the
SECOND (last) writable characteristic, not the first as claimed. -/
theorem claim5_char_selection_counterexample :
    selectChar [cfSvc] = some cfChar2
      ∧ (cfSvc.characteristics.filter isWritableChar).head? = some cfChar1
      ∧ cfChar2 ≠ cfChar1 :=
  ⟨rfl, rfl, by decide⟩

/-- Claim C5 amended: when the first lighthouse-UUID service contains a
characteristic with the exact lighthouse characteristic UUID, that
(first such) characteristic is selected regardless of earlier writable
candidates; otherwise, among services none of which bears the lighthouse
service UUID, the target is the first service's candidate — its first
exact-UUID characteristic or, failing that, its LAST characteristic
supporting write or write-without-response; when no service offers an
exact-UUID or writable characteristic nothing is selected and send fails
with "No writable characteristic found" without issuing any write. -/
theorem claim5_char_selection_amended :
    (∀ (pre : List Service) (s : Service) (post : List Service) (c : Characteristic),
        (∀ v ∈ pre, (v.uuid == LIGHTHOUSE_SERVICE_UUID) = false) →
        (s.uuid == LIGHTHOUSE_SERVICE_UUID) = true →
        firstExact s.characteristics = some c →
        selectChar (pre ++ s :: post) = some c)
  ∧ (∀ services : List Service,
        (∀ s ∈ services, (s.uuid == LIGHTHOUSE_SERVICE_UUID) = false) →
        selectChar services = services.findSome? servicePick)
  ∧ (∀ services : List Service,
        (∀ s ∈ services, ∀ c ∈ s.characteristics, charMatches c = false) →
        selectChar services = none)
  ∧ (∀ (p : Peripheral) (cmd : Nat) (pr : Option PeripheralProperties),
        p.properties = Except.ok pr → p.discoverRes = Except.ok () →
        (p.isConnected = true ∨ p.connectRes = Except.ok ()) →
        selectChar p.services = none →
        (sendCommandToDevice p cmd).1 = Except.error "No writable characteristic found"
          ∧ ∀ e ∈ (sendCommandToDevice p cmd).2, BleEvent.isWrite e = false) := by
  refine ⟨?_, ?_, ?_, send_noChar⟩
  · intro pre s post c hpre hu he
    unfold selectChar
    obtain ⟨t2, ht2⟩ := findServiceLoop_append_nonlh pre (s :: post) none hpre
    rw [ht2]
    exact findServiceLoop_lh_exact s post c t2 hu he
  · intro services h
    exact findServiceLoop_nonlh_none services h
  · intro services h
    exact findServiceLoop_nomatch services none h

/-- Witness for the amended C5: with a writable non-lighthouse service
before the lighthouse service, the exact lighthouse characteristic still
wins; and the no-characteristic device's send fails without a write. -/
theorem claim5_char_selection_amended_witness :
    selectChar [cfSvc, sampleGoodSvc]
        = some ⟨LIGHTHOUSE_CHAR_UUID, false, true⟩
      ∧ (sendCommandToDevice sampleNoCharDev POWERON_COMMAND).1
        = Except.error "No writable characteristic found" :=
  ⟨claim5_char_selection_amended.1 [cfSvc] sampleGoodSvc []
      ⟨LIGHTHOUSE_CHAR_UUID, false, true⟩
      (by intro v hv; fin_cases hv; rfl) rfl rfl,
   (claim5_char_selection_amended.2.2.2 sampleNoCharDev POWERON_COMMAND
      (some sampleLhProps) rfl rfl (Or.inr rfl) rfl).1⟩

end Lighthouse
